import Mathlib

/-!
Shallow embedding of the rental-ledger core of the real-estate-tracker app.

The embedded code comes from:
* `backend/routes/rentalsRoutes.js` — the Express routes for leases,
  payments and balance adjustments (the command boundary);
* `backend/db/index.js` — the SQLite helper functions `createLease`,
  `getLeaseById`, `recordPayment`, `listPaymentsForLease`,
  `updateLeaseBalance`, `getActiveLeaseForProperty`, `ensureDemoRentalData`;
* `src/LandlordPortal.jsx` — the landlord stats / per-lease paid pill and
  the renter portal's paid-this-month / overdue / ledger rendering rules.

Database tables are lists of rows; SQLite AUTOINCREMENT ids and the
`paid_at` / `created_at` timestamps are modelled by per-table counters and a
global strictly increasing clock.  JavaScript numbers reaching the routes
through `Number(...)` are modelled by `JsNum`: either a finite rational or a
non-finite value (NaN / ±Infinity).  User ids (TEXT uuids in the schema) are
modelled as naturals; only equality of ids is ever used.
-/

namespace RentalApp

/-- Result of the JavaScript `Number(...)` coercion as tested by the routes:
a finite value, or NaN / Infinity / -Infinity (`Number.isFinite` false). -/
inductive JsNum where
  | fin (x : ℚ)
  | nonfinite
deriving DecidableEq, Repr

/-- `Number.isFinite(Number(v)) ? Number(v) : 0` — the coercion used for the
`currentBalance` field of the lease-creation route. -/
def JsNum.orZero : JsNum → ℚ
  | .fin x => x
  | .nonfinite => 0

/-- The `type` column of the `payments` table: 'payment', 'charge' or 'credit'. -/
inductive EntryKind where
  | payment
  | charge
  | credit
deriving DecidableEq, Repr

/-- A row of the `payments` table (the ledger-entry store). -/
structure PaymentRow where
  id : Nat
  lease_id : Nat
  amount : ℚ
  paid_at : Nat
  type : EntryKind
deriving DecidableEq, Repr

/-- A row of the `leases` table. -/
structure LeaseRow where
  id : Nat
  property_id : Nat
  renter_id : Nat
  start_date : Option Nat
  occupants_count : Nat
  monthly_rent : ℚ
  due_day : ℤ
  current_balance : ℚ
  is_active : Bool
  created_at : Nat
deriving DecidableEq, Repr

/-- A row of the `rental_properties` table (columns the engine reads). -/
structure PropertyRow where
  id : Nat
  landlord_id : Nat
  monthly_rent : ℚ
deriving DecidableEq, Repr

/-- The `role` column of the `users` table, as checked by `requireRole`. -/
inductive Role where
  | landlord
  | renter
deriving DecidableEq, Repr

/-- A row of the `users` table (fields the rental routes read). -/
structure UserRow where
  id : Nat
  role : Role
deriving DecidableEq, Repr

/-- The backend store: the four tables plus id counters and the clock. -/
structure Db where
  users : List UserRow
  rental_properties : List PropertyRow
  leases : List LeaseRow
  payments : List PaymentRow
  nextLeaseId : Nat
  nextPaymentId : Nat
  clock : Nat
deriving DecidableEq, Repr

/-- `SELECT * FROM users WHERE id = ? LIMIT 1` (`getUserById`). -/
def getUserById (db : Db) (id : Nat) : Option UserRow :=
  db.users.find? (fun u => u.id == id)

/-- `SELECT * FROM leases WHERE id = ? LIMIT 1` (`getLeaseById`). -/
def getLeaseById (db : Db) (id : Nat) : Option LeaseRow :=
  db.leases.find? (fun l => l.id == id)

/-- `SELECT * FROM rental_properties WHERE id = ? LIMIT 1`
(`getRentalPropertyById`). -/
def getRentalPropertyById (db : Db) (id : Nat) : Option PropertyRow :=
  db.rental_properties.find? (fun p => p.id == id)

/-- `ORDER BY paid_at DESC` comparator: `a` sorts before `b` when its
timestamp is at least `b`'s. -/
def newestFirst (a b : PaymentRow) : Bool :=
  b.paid_at ≤ a.paid_at

/-- `SELECT * FROM payments WHERE lease_id = ? ORDER BY paid_at DESC`
(`listPaymentsForLease`). -/
def listPaymentsForLease (db : Db) (leaseId : Nat) : List PaymentRow :=
  (db.payments.filter (fun p => p.lease_id == leaseId)).mergeSort newestFirst

/-- `SELECT * FROM payments WHERE lease_id = ? ORDER BY id DESC LIMIT 1`:
the row `recordPayment` returns after its INSERT. -/
def lastPaymentForLease (db : Db) (leaseId : Nat) : Option PaymentRow :=
  ((db.payments.filter (fun p => p.lease_id == leaseId)).mergeSort
    (fun a b => b.id ≤ a.id)).head?

/-- `UPDATE leases SET current_balance = current_balance - ? WHERE id = ?`
applied to one row (the statement `recordPayment` runs for 'payment' rows). -/
def subBalanceRow (leaseId : Nat) (amount : ℚ) (l : LeaseRow) : LeaseRow :=
  if l.id == leaseId then { l with current_balance := l.current_balance - amount } else l

/-- `UPDATE leases SET current_balance = current_balance + ? WHERE id = ?`
applied to one row (the statement `updateLeaseBalance` runs). -/
def addBalanceRow (leaseId : Nat) (delta : ℚ) (l : LeaseRow) : LeaseRow :=
  if l.id == leaseId then { l with current_balance := l.current_balance + delta } else l

/-- The store mutation performed by `recordPayment`: INSERT the entry, and
only for `type = 'payment'` also subtract the amount from the lease balance
(charges/credits change the balance upstream, in `updateLeaseBalance`). -/
def recordPaymentDb (db : Db) (leaseId : Nat) (amount : ℚ) (type : EntryKind) : Db :=
  { db with
    payments := db.payments ++ [⟨db.nextPaymentId, leaseId, amount, db.clock, type⟩]
    leases :=
      if type = EntryKind.payment then db.leases.map (subBalanceRow leaseId amount)
      else db.leases
    nextPaymentId := db.nextPaymentId + 1
    clock := db.clock + 1 }

/-- `recordPayment({leaseId, amount, type})`: mutate the store, then return
the inserted row (max-id entry of the lease). -/
def recordPayment (db : Db) (leaseId : Nat) (amount : ℚ) (type : EntryKind) :
    Db × Option PaymentRow :=
  (recordPaymentDb db leaseId amount type,
   lastPaymentForLease (recordPaymentDb db leaseId amount type) leaseId)

/-- The store mutation performed by `updateLeaseBalance`: add the delta to
the lease's `current_balance`. -/
def updateLeaseBalanceDb (db : Db) (leaseId : Nat) (delta : ℚ) : Db :=
  { db with leases := db.leases.map (addBalanceRow leaseId delta) }

/-- `updateLeaseBalance(leaseId, delta)`: mutate, then re-read the lease. -/
def updateLeaseBalance (db : Db) (leaseId : Nat) (delta : ℚ) :
    Db × Option LeaseRow :=
  (updateLeaseBalanceDb db leaseId delta,
   getLeaseById (updateLeaseBalanceDb db leaseId delta) leaseId)

/-- Argument record of `db.createLease` (values already validated/coerced by
the route). -/
structure LeaseArgs where
  propertyId : Nat
  renterId : Nat
  startDate : Option Nat
  occupantsCount : Nat
  monthlyRent : ℚ
  dueDay : ℤ
  currentBalance : ℚ
deriving DecidableEq, Repr

/-- The row `db.createLease` INSERTs: fresh id, `is_active = 1`. -/
def newLeaseRow (db : Db) (a : LeaseArgs) : LeaseRow :=
  ⟨db.nextLeaseId, a.propertyId, a.renterId, a.startDate, a.occupantsCount,
   a.monthlyRent, a.dueDay, a.currentBalance, true, db.clock⟩

/-- The store mutation performed by `createLease` (plain INSERT; note there
is no check for an existing active lease on the property). -/
def createLeaseDb (db : Db) (a : LeaseArgs) : Db :=
  { db with
    leases := db.leases ++ [newLeaseRow db a]
    nextLeaseId := db.nextLeaseId + 1
    clock := db.clock + 1 }

/-- `SELECT * FROM leases WHERE property_id = ? ORDER BY id DESC LIMIT 1`:
the row `createLease` returns after its INSERT. -/
def lastLeaseForProperty (db : Db) (propertyId : Nat) : Option LeaseRow :=
  ((db.leases.filter (fun l => l.property_id == propertyId)).mergeSort
    (fun a b => b.id ≤ a.id)).head?

/-- `db.createLease({...})`: INSERT, then return the newest lease row of the
property. -/
def createLease (db : Db) (a : LeaseArgs) : Db × Option LeaseRow :=
  (createLeaseDb db a, lastLeaseForProperty (createLeaseDb db a) a.propertyId)

/-- `SELECT ... FROM leases WHERE property_id = ? AND is_active = 1 ORDER BY
id DESC LIMIT 1` (`getActiveLeaseForProperty`). -/
def getActiveLeaseForProperty (db : Db) (propertyId : Nat) : Option LeaseRow :=
  ((db.leases.filter (fun l => l.property_id == propertyId && l.is_active)).mergeSort
    (fun a b => b.id ≤ a.id)).head?

/-- An HTTP error response: status code plus the `error` message body. -/
structure ApiError where
  status : Nat
  error : String
deriving DecidableEq, Repr

/-- The message produced by the `requireRole` middleware. -/
def roleError : Role → String
  | Role.landlord => "Only landlords can do this action."
  | Role.renter => "Only renters can do this action."

/-- The `requireRole(neededRole)` middleware: load the authenticated user by
`req.auth.sub` and demand the role, else a 403. -/
def requireRole (db : Db) (sub : Nat) (needed : Role) : Option ApiError :=
  match getUserById db sub with
  | none => some ⟨403, roleError needed⟩
  | some u => if u.role = needed then none else some ⟨403, roleError needed⟩

/-- Success payload of `POST /rentals/payments`. -/
structure PayResult where
  payment : Option PaymentRow
  lease : Option LeaseRow
  payments : List PaymentRow
deriving DecidableEq, Repr

/-- `POST /rentals/payments` (renter pays against a lease), from
`rentalsRoutes.js`: role check, amount validation, lease + renter-ownership
check, then `recordPayment` and re-reads of the lease and its entry list. -/
def paymentsPost (db : Db) (sub : Nat) (leaseId : Nat) (amount : JsNum) :
    Db × Except ApiError PayResult :=
  match requireRole db sub Role.renter with
  | some e => (db, Except.error e)
  | none =>
    match amount with
    | JsNum.nonfinite => (db, Except.error ⟨400, "Payment amount must be positive."⟩)
    | JsNum.fin value =>
      if value ≤ 0 then (db, Except.error ⟨400, "Payment amount must be positive."⟩)
      else
        match getLeaseById db leaseId with
        | none => (db, Except.error ⟨403, "You can only pay your own lease."⟩)
        | some lease =>
          if lease.renter_id ≠ sub then
            (db, Except.error ⟨403, "You can only pay your own lease."⟩)
          else
            let out := recordPayment db leaseId value EntryKind.payment
            (out.1, Except.ok
              ⟨out.2, getLeaseById out.1 leaseId, listPaymentsForLease out.1 leaseId⟩)

/-- `PATCH /rentals/leases/:leaseId/balance` (landlord charge/credit), from
`rentalsRoutes.js`: role check, finiteness check on the delta, lease lookup
(404 when missing), property-ownership check, then `updateLeaseBalance`
followed by `recordPayment` with type `charge` when the delta is positive
and `credit` otherwise. -/
def leaseBalancePatch (db : Db) (sub : Nat) (leaseId : Nat) (balance : JsNum) :
    Db × Except ApiError (Option LeaseRow) :=
  match requireRole db sub Role.landlord with
  | some e => (db, Except.error e)
  | none =>
    match balance with
    | JsNum.nonfinite => (db, Except.error ⟨400, "Balance must be a number."⟩)
    | JsNum.fin value =>
      match getLeaseById db leaseId with
      | none => (db, Except.error ⟨404, "Lease not found."⟩)
      | some lease =>
        match getRentalPropertyById db lease.property_id with
        | none => (db, Except.error ⟨403, "You can only update your own leases."⟩)
        | some property =>
          if property.landlord_id ≠ sub then
            (db, Except.error ⟨403, "You can only update your own leases."⟩)
          else
            let upd := updateLeaseBalance db leaseId value
            let entryType := if 0 < value then EntryKind.charge else EntryKind.credit
            let out := recordPayment upd.1 leaseId value entryType
            (out.1, Except.ok upd.2)

/-- Request body of `POST /rentals/leases`; absent `propertyId`/`renterId`
are `none`, `occupantsCount` defaults to 1 and `currentBalance` to 0 in the
route's destructuring. -/
structure LeasePostBody where
  propertyId : Option Nat
  renterId : Option Nat
  startDate : Option Nat
  occupantsCount : Nat
  monthlyRent : JsNum
  dueDay : JsNum
  currentBalance : JsNum
deriving DecidableEq, Repr

/-- `POST /rentals/leases` (landlord creates a lease), from
`rentalsRoutes.js`: role check, required fields, positive finite rent,
integer due day in 1..31, property-ownership check, then `createLease` with
the caller's `currentBalance` coerced to 0 when non-finite.  There is no
check for an already-active lease on the property. -/
def leasesPost (db : Db) (sub : Nat) (b : LeasePostBody) :
    Db × Except ApiError (Option LeaseRow) :=
  match requireRole db sub Role.landlord with
  | some e => (db, Except.error e)
  | none =>
    match b.propertyId, b.renterId with
    | some propertyId, some renterId =>
      match b.monthlyRent with
      | JsNum.nonfinite =>
        (db, Except.error ⟨400, "Monthly rent must be a positive number."⟩)
      | JsNum.fin rentValue =>
        if rentValue ≤ 0 then
          (db, Except.error ⟨400, "Monthly rent must be a positive number."⟩)
        else
          match b.dueDay with
          | JsNum.nonfinite =>
            (db, Except.error ⟨400, "Due day should be a day of the month (1-31)."⟩)
          | JsNum.fin d =>
            if d.den ≠ 1 ∨ d < 1 ∨ 31 < d then
              (db, Except.error ⟨400, "Due day should be a day of the month (1-31)."⟩)
            else
              match getRentalPropertyById db propertyId with
              | none => (db, Except.error ⟨403, "You can only lease your own properties."⟩)
              | some property =>
                if property.landlord_id ≠ sub then
                  (db, Except.error ⟨403, "You can only lease your own properties."⟩)
                else
                  let created := createLease db
                    ⟨propertyId, renterId, b.startDate, b.occupantsCount,
                     rentValue, d.num, b.currentBalance.orZero⟩
                  (created.1, Except.ok created.2)
    | _, _ => (db, Except.error ⟨400, "Property and renter are required."⟩)

/-- The balance-mutating commands of the Balance Engine: a renter `Pay`
(`POST /rentals/payments`) or a landlord `adjustBalance`
(`PATCH /rentals/leases/:leaseId/balance`, covering Charge and Credit). -/
inductive Cmd where
  | pay (sub : Nat) (leaseId : Nat) (amount : JsNum)
  | adjust (sub : Nat) (leaseId : Nat) (balance : JsNum)
deriving DecidableEq, Repr

/-- The store after one command (the response body is discarded). -/
def step (db : Db) : Cmd → Db
  | Cmd.pay sub leaseId amount => (paymentsPost db sub leaseId amount).1
  | Cmd.adjust sub leaseId balance => (leaseBalancePatch db sub leaseId balance).1

/-- The store after a sequence of commands. -/
def runCmds (db : Db) : List Cmd → Db
  | [] => db
  | c :: cs => runCmds (step db c) cs

/-- Signed effect of one ledger entry on the running balance: payments
subtract their amount, charges and credits add their (signed) amount. -/
def entryEffect (e : PaymentRow) : ℚ :=
  match e.type with
  | EntryKind.payment => -e.amount
  | EntryKind.charge => e.amount
  | EntryKind.credit => e.amount

/-- Sum of the signed effects of the entries of one lease in a payment list. -/
def ledgerSumL (ps : List PaymentRow) (leaseId : Nat) : ℚ :=
  ((ps.filter (fun p => p.lease_id == leaseId)).map entryEffect).sum

/-- Sum of the signed effects of all ledger entries of a lease. -/
def ledgerSum (db : Db) (leaseId : Nat) : ℚ :=
  ledgerSumL db.payments leaseId

/-- The stored running balance of a lease (0 when the lease is missing). -/
def balanceOf (db : Db) (leaseId : Nat) : ℚ :=
  match getLeaseById db leaseId with
  | some l => l.current_balance
  | none => 0

/-- Sign discipline of one stored entry: payments and charges are positive;
credits are at most 0 (the delta-0 adjustment is classified as a credit). -/
def entrySignOk (e : PaymentRow) : Bool :=
  match e.type with
  | EntryKind.payment => decide (0 < e.amount)
  | EntryKind.charge => decide (0 < e.amount)
  | EntryKind.credit => decide (e.amount ≤ 0)

/-- All stored entries satisfy the sign discipline. -/
def entriesOk (db : Db) : Bool :=
  db.payments.all entrySignOk

/-- The active leases of one property (the rows a uniqueness invariant would
be about). -/
def activeLeasesForProperty (db : Db) (propertyId : Nat) : List LeaseRow :=
  db.leases.filter (fun l => l.property_id == propertyId && l.is_active)

/-- JavaScript `x || y` on numeric values: `y` when `x` is falsy (0), else
`x`. -/
def jsOr (x y : ℚ) : ℚ :=
  if x = 0 then y else x

/-- LandlordPortal stats tile: a property counts as paid when its active
lease has `Number(lease.current_balance) <= 0` (`stats` memo). -/
def statsPaid (activeLease : Option LeaseRow) : Bool :=
  match activeLease with
  | some lease => decide (lease.current_balance ≤ 0)
  | none => false

/-- LandlordPortal per-lease card pill: `balance <= (monthlyRent || 0)`
where `balance = Number(lease.current_balance || 0)` and
`monthlyRent = Number(lease.monthly_rent || 0)`. -/
def leaseCardPaid (activeLease : Option LeaseRow) : Bool :=
  match activeLease with
  | some lease =>
    let balance := jsOr lease.current_balance 0
    let monthlyRent := jsOr lease.monthly_rent 0
    decide (balance ≤ jsOr monthlyRent 0)
  | none => false

/-- RenterPortal `paidThisMonth`: `monthly ? balance <= monthly :
balance <= 0` (computed identically after load, after a payment, and for
the header pill). -/
def renterPaidThisMonth (balance monthly : ℚ) : Bool :=
  if monthly ≠ 0 then decide (balance ≤ monthly) else decide (balance ≤ 0)

/-- RenterPortal `balanceOverdue`: `monthly ? balance > monthly :
balance > 0` (the overdue nudge). -/
def renterBalanceOverdue (balance monthly : ℚ) : Bool :=
  if monthly ≠ 0 then decide (monthly < balance) else decide (0 < balance)

/-- `formatMoney`: dollar sign plus the rendered number (`toLocaleString`
abstracted to `toString`; only the prefix sign and the absolute value matter
to the claims). -/
def formatMoney (value : ℚ) : String :=
  "$" ++ toString value

/-- RenterPortal `formatLedgerAmount`: a plus sign for charges, a minus sign
otherwise, on the absolute amount. -/
def formatLedgerAmount (entry : PaymentRow) : String :=
  let amountAbs := |entry.amount|
  let sign := if entry.type == EntryKind.charge then "+" else "-"
  sign ++ formatMoney amountAbs

/-- RenterPortal `ledgerLabel`: the label shown next to a ledger entry. -/
def ledgerLabel (entry : PaymentRow) : String :=
  if entry.type == EntryKind.charge then "Rent issued"
  else if entry.type == EntryKind.credit then "Credited on"
  else "Paid on"

/-- RenterPortal ledger mapping, `note` field (both in the lease loader and
in `handleConfirmPayment`): charges and credits are noted as posted by the
landlord, payments as paid by the renter. -/
def renterEntryNote (t : EntryKind) : String :=
  if t == EntryKind.charge || t == EntryKind.credit then "Posted by landlord"
  else "Paid by you"

/-- The store seeded by `ensureDemoUsers` plus the demo property: one
landlord (id 1), one renter (id 2), one rental property (id 1, rent 1200),
before the demo lease is inserted. -/
def demoBase : Db :=
  { users := [⟨1, Role.landlord⟩, ⟨2, Role.renter⟩]
    rental_properties := [⟨1, 1, 1200⟩]
    leases := []
    payments := []
    nextLeaseId := 1
    nextPaymentId := 1
    clock := 0 }

/-- The store after `ensureDemoRentalData`: the demo lease is created via
`db.createLease` with `monthlyRent 1200, dueDay 1, currentBalance 1200`
("one month due"); no ledger entry is written for it. -/
def demoDb : Db :=
  (createLease demoBase ⟨1, 2, some 0, 1, 1200, 1, 1200⟩).1

/-- A small store for authorization witnesses: two landlords (1, 4), two
renters (2, 3), two properties (1 owned by 1, 2 owned by 4), and an active
lease on each (lease 1 for renter 2, lease 2 for renter 3). -/
def wDb : Db :=
  { users := [⟨1, Role.landlord⟩, ⟨2, Role.renter⟩, ⟨3, Role.renter⟩, ⟨4, Role.landlord⟩]
    rental_properties := [⟨1, 1, 1200⟩, ⟨2, 4, 900⟩]
    leases := [⟨1, 1, 2, none, 1, 1200, 1, 1200, true, 0⟩,
               ⟨2, 2, 3, none, 1, 900, 1, 0, true, 0⟩]
    payments := []
    nextLeaseId := 3
    nextPaymentId := 1
    clock := 1 }

end RentalApp
namespace RentalApp

theorem subBalanceRow_id (leaseId : Nat) (amount : ℚ) (l : LeaseRow) :
    (subBalanceRow leaseId amount l).id = l.id := by
  unfold subBalanceRow; split <;> rfl

theorem addBalanceRow_id (leaseId : Nat) (delta : ℚ) (l : LeaseRow) :
    (addBalanceRow leaseId delta l).id = l.id := by
  unfold addBalanceRow; split <;> rfl

theorem find?_map_of_id (f : LeaseRow → LeaseRow) (hf : ∀ l, (f l).id = l.id)
    (xs : List LeaseRow) (j : Nat) :
    (xs.map f).find? (fun l => l.id == j) = (xs.find? (fun l => l.id == j)).map f := by
  induction xs with
  | nil => rfl
  | cons x xs ih =>
    rw [List.map_cons, List.find?_cons, List.find?_cons, hf x]
    cases hx : x.id == j
    · exact ih
    · rfl

theorem getLeaseById_recordPaymentDb (db : Db) (l : Nat) (a : ℚ) (t : EntryKind) (j : Nat) :
    getLeaseById (recordPaymentDb db l a t) j =
      if t = EntryKind.payment then (getLeaseById db j).map (subBalanceRow l a)
      else getLeaseById db j := by
  unfold getLeaseById recordPaymentDb
  by_cases ht : t = EntryKind.payment
  · simp only [ht, if_pos rfl]
    exact find?_map_of_id _ (subBalanceRow_id l a) db.leases j
  · simp [ht]

theorem getLeaseById_updateLeaseBalanceDb (db : Db) (l : Nat) (d : ℚ) (j : Nat) :
    getLeaseById (updateLeaseBalanceDb db l d) j =
      (getLeaseById db j).map (addBalanceRow l d) := by
  unfold getLeaseById updateLeaseBalanceDb
  exact find?_map_of_id _ (addBalanceRow_id l d) db.leases j

theorem ledgerSumL_append_one (ps : List PaymentRow) (row : PaymentRow) (j : Nat) :
    ledgerSumL (ps ++ [row]) j =
      ledgerSumL ps j + (if row.lease_id == j then entryEffect row else 0) := by
  unfold ledgerSumL
  rw [List.filter_append]
  cases hr : row.lease_id == j <;> simp [hr]

theorem ledgerSum_recordPaymentDb (db : Db) (l : Nat) (a : ℚ) (t : EntryKind) (j : Nat) :
    ledgerSum (recordPaymentDb db l a t) j =
      ledgerSum db j + (if l == j then entryEffect ⟨db.nextPaymentId, l, a, db.clock, t⟩ else 0) := by
  unfold ledgerSum recordPaymentDb
  exact ledgerSumL_append_one db.payments _ j

theorem ledgerSum_updateLeaseBalanceDb (db : Db) (l : Nat) (d : ℚ) (j : Nat) :
    ledgerSum (updateLeaseBalanceDb db l d) j = ledgerSum db j := rfl

end RentalApp
namespace RentalApp

theorem paymentsPost_fst_diff (db : Db) (sub lid : Nat) (amt : JsNum) (j : Nat) :
    balanceOf (paymentsPost db sub lid amt).1 j - ledgerSum (paymentsPost db sub lid amt).1 j
      = balanceOf db j - ledgerSum db j := by
  unfold paymentsPost
  cases hr : requireRole db sub Role.renter with
  | some e => rfl
  | none =>
    cases amt with
    | nonfinite => rfl
    | fin v =>
      dsimp only
      by_cases hv : v ≤ 0
      · rw [if_pos hv]
      · rw [if_neg hv]
        cases hl : getLeaseById db lid with
        | none => rfl
        | some lease =>
          dsimp only
          by_cases hren : lease.renter_id ≠ sub
          · rw [if_pos hren]
          · rw [if_neg hren]
            show balanceOf (recordPaymentDb db lid v EntryKind.payment) j
                - ledgerSum (recordPaymentDb db lid v EntryKind.payment) j
              = balanceOf db j - ledgerSum db j
            rw [ledgerSum_recordPaymentDb]
            unfold balanceOf
            rw [getLeaseById_recordPaymentDb, if_pos rfl]
            cases hj : getLeaseById db j with
            | none =>
              by_cases hje : (lid == j) = true
              · have : lid = j := eq_of_beq hje
                rw [this] at hl
                rw [hl] at hj
                exact absurd hj (by simp)
              · rw [if_neg (by simp [hje])]
                simp
            | some r =>
              have hj' : db.leases.find? (fun l => l.id == j) = some r := hj
              have hrid : (r.id == j) = true := by
                have h2 := List.find?_some hj'
                simpa using h2
              rw [Option.map_some']
              by_cases hje : (lid == j) = true
              · have hlj : lid = j := eq_of_beq hje
                subst hlj
                rw [if_pos hje]
                unfold subBalanceRow
                rw [if_pos (by rw [eq_of_beq hrid]; exact hje)]
                show r.current_balance - v - (ledgerSum db lid + entryEffect _) = _
                unfold entryEffect
                ring
              · rw [if_neg (by simp [hje])]
                unfold subBalanceRow
                rw [if_neg (by
                  rw [eq_of_beq hrid]
                  simp only [beq_iff_eq]
                  exact fun h => hje (by simp [h]))]
                ring

end RentalApp
namespace RentalApp

theorem adjustMutation_diff (db : Db) (lid : Nat) (v : ℚ) (t : EntryKind) (j : Nat)
    (lease : LeaseRow) (ht : t ≠ EntryKind.payment)
    (hl : getLeaseById db lid = some lease) :
    balanceOf (recordPaymentDb (updateLeaseBalanceDb db lid v) lid v t) j
      - ledgerSum (recordPaymentDb (updateLeaseBalanceDb db lid v) lid v t) j
      = balanceOf db j - ledgerSum db j := by
  rw [ledgerSum_recordPaymentDb, ledgerSum_updateLeaseBalanceDb]
  unfold balanceOf
  rw [getLeaseById_recordPaymentDb, if_neg ht, getLeaseById_updateLeaseBalanceDb]
  have heff : entryEffect ⟨(updateLeaseBalanceDb db lid v).nextPaymentId, lid, v,
      (updateLeaseBalanceDb db lid v).clock, t⟩ = v := by
    cases t with
    | payment => exact absurd rfl ht
    | charge => rfl
    | credit => rfl
  rw [heff]
  cases hj : getLeaseById db j with
  | none =>
    by_cases hje : (lid == j) = true
    · have hlj : lid = j := eq_of_beq hje
      rw [hlj] at hl
      rw [hl] at hj
      exact absurd hj (by simp)
    · rw [if_neg (by simp [hje])]
      simp
  | some r =>
    have hj' : db.leases.find? (fun l => l.id == j) = some r := hj
    have hrid : (r.id == j) = true := by
      have h2 := List.find?_some hj'
      simpa using h2
    rw [Option.map_some']
    by_cases hje : (lid == j) = true
    · have hlj : lid = j := eq_of_beq hje
      subst hlj
      rw [if_pos hje]
      unfold addBalanceRow
      rw [if_pos (by rw [eq_of_beq hrid]; exact hje)]
      show r.current_balance + v - (ledgerSum db lid + v) = _
      ring
    · rw [if_neg (by simp [hje])]
      unfold addBalanceRow
      rw [if_neg (by
        rw [eq_of_beq hrid]
        simp only [beq_iff_eq]
        exact fun h => hje (by simp [h]))]
      ring

theorem leaseBalancePatch_fst_diff (db : Db) (sub lid : Nat) (bal : JsNum) (j : Nat) :
    balanceOf (leaseBalancePatch db sub lid bal).1 j
      - ledgerSum (leaseBalancePatch db sub lid bal).1 j
      = balanceOf db j - ledgerSum db j := by
  unfold leaseBalancePatch
  cases hr : requireRole db sub Role.landlord with
  | some e => rfl
  | none =>
    cases bal with
    | nonfinite => rfl
    | fin v =>
      dsimp only
      cases hl : getLeaseById db lid with
      | none => rfl
      | some lease =>
        dsimp only
        cases hp : getRentalPropertyById db lease.property_id with
        | none => rfl
        | some property =>
          dsimp only
          by_cases hown : property.landlord_id ≠ sub
          · rw [if_pos hown]
          · rw [if_neg hown]
            show balanceOf (recordPaymentDb (updateLeaseBalanceDb db lid v) lid v
                  (if 0 < v then EntryKind.charge else EntryKind.credit)) j
                - ledgerSum (recordPaymentDb (updateLeaseBalanceDb db lid v) lid v
                  (if 0 < v then EntryKind.charge else EntryKind.credit)) j
              = balanceOf db j - ledgerSum db j
            by_cases hvpos : 0 < v
            · rw [if_pos hvpos]
              exact adjustMutation_diff db lid v EntryKind.charge j lease (by simp) hl
            · rw [if_neg hvpos]
              exact adjustMutation_diff db lid v EntryKind.credit j lease (by simp) hl

theorem step_diff (db : Db) (c : Cmd) (j : Nat) :
    balanceOf (step db c) j - ledgerSum (step db c) j = balanceOf db j - ledgerSum db j := by
  cases c with
  | pay sub lid amt => exact paymentsPost_fst_diff db sub lid amt j
  | adjust sub lid bal => exact leaseBalancePatch_fst_diff db sub lid bal j

theorem runCmds_diff (cs : List Cmd) : ∀ (db : Db) (j : Nat),
    balanceOf (runCmds db cs) j - ledgerSum (runCmds db cs) j
      = balanceOf db j - ledgerSum db j := by
  induction cs with
  | nil => intro db j; rfl
  | cons c cs ih =>
    intro db j
    show balanceOf (runCmds (step db c) cs) j - ledgerSum (runCmds (step db c) cs) j = _
    rw [ih (step db c) j, step_diff]

end RentalApp
namespace RentalApp

theorem requireRole_none (db : Db) (sub : Nat) (u : UserRow) (r : Role)
    (hu : getUserById db sub = some u) (hrole : u.role = r) :
    requireRole db sub r = none := by
  unfold requireRole
  rw [hu]
  simp [hrole]

theorem paymentsPost_fst_payments (db : Db) (sub lid : Nat) (amt : JsNum) :
    (paymentsPost db sub lid amt).1.payments = db.payments ∨
    ∃ v : ℚ, amt = JsNum.fin v ∧ 0 < v ∧
      (paymentsPost db sub lid amt).1.payments
        = db.payments ++ [⟨db.nextPaymentId, lid, v, db.clock, EntryKind.payment⟩] := by
  unfold paymentsPost
  cases hr : requireRole db sub Role.renter with
  | some e => exact Or.inl rfl
  | none =>
    cases amt with
    | nonfinite => exact Or.inl rfl
    | fin v =>
      dsimp only
      by_cases hv : v ≤ 0
      · rw [if_pos hv]; exact Or.inl rfl
      · rw [if_neg hv]
        cases hl : getLeaseById db lid with
        | none => exact Or.inl rfl
        | some lease =>
          dsimp only
          by_cases hren : lease.renter_id ≠ sub
          · rw [if_pos hren]; exact Or.inl rfl
          · rw [if_neg hren]
            exact Or.inr ⟨v, rfl, not_le.mp hv, rfl⟩

theorem leaseBalancePatch_fst_payments (db : Db) (sub lid : Nat) (bal : JsNum) :
    (leaseBalancePatch db sub lid bal).1.payments = db.payments ∨
    ∃ v : ℚ, bal = JsNum.fin v ∧
      (leaseBalancePatch db sub lid bal).1.payments
        = db.payments ++ [⟨db.nextPaymentId, lid, v, db.clock,
            if 0 < v then EntryKind.charge else EntryKind.credit⟩] := by
  unfold leaseBalancePatch
  cases hr : requireRole db sub Role.landlord with
  | some e => exact Or.inl rfl
  | none =>
    cases bal with
    | nonfinite => exact Or.inl rfl
    | fin v =>
      dsimp only
      cases hl : getLeaseById db lid with
      | none => exact Or.inl rfl
      | some lease =>
        dsimp only
        cases hp : getRentalPropertyById db lease.property_id with
        | none => exact Or.inl rfl
        | some property =>
          dsimp only
          by_cases hown : property.landlord_id ≠ sub
          · rw [if_pos hown]; exact Or.inl rfl
          · rw [if_neg hown]
            refine Or.inr ⟨v, rfl, ?_⟩
            show (recordPaymentDb (updateLeaseBalanceDb db lid v) lid v
              (if 0 < v then EntryKind.charge else EntryKind.credit)).payments = _
            rfl

theorem entriesOk_step (db : Db) (c : Cmd) (h : entriesOk db = true) :
    entriesOk (step db c) = true := by
  cases c with
  | pay sub lid amt =>
    show entriesOk (paymentsPost db sub lid amt).1 = true
    rcases paymentsPost_fst_payments db sub lid amt with hsame | ⟨v, _, hv, happ⟩
    · unfold entriesOk
      rw [hsame]
      exact h
    · unfold entriesOk
      rw [happ]
      rw [List.all_append]
      unfold entriesOk at h
      rw [h]
      simp [entrySignOk, hv]
  | adjust sub lid bal =>
    show entriesOk (leaseBalancePatch db sub lid bal).1 = true
    rcases leaseBalancePatch_fst_payments db sub lid bal with hsame | ⟨v, _, happ⟩
    · unfold entriesOk
      rw [hsame]
      exact h
    · unfold entriesOk
      rw [happ]
      rw [List.all_append]
      unfold entriesOk at h
      rw [h]
      by_cases hv : 0 < v
      · simp [entrySignOk, if_pos hv, hv]
      · simp [entrySignOk, if_neg hv, not_lt.mp hv]

theorem entriesOk_runCmds (cs : List Cmd) : ∀ (db : Db),
    entriesOk db = true → entriesOk (runCmds db cs) = true := by
  induction cs with
  | nil => intro db h; exact h
  | cons c cs ih =>
    intro db h
    exact ih (step db c) (entriesOk_step db c h)

end RentalApp
namespace RentalApp

theorem paymentsPost_success_eq (db : Db) (sub lid : Nat) (u : UserRow)
    (lease : LeaseRow) (v : ℚ)
    (hu : getUserById db sub = some u) (hrole : u.role = Role.renter)
    (hv : 0 < v) (hl : getLeaseById db lid = some lease)
    (hren : lease.renter_id = sub) :
    paymentsPost db sub lid (JsNum.fin v)
      = ((recordPayment db lid v EntryKind.payment).1,
         Except.ok ⟨(recordPayment db lid v EntryKind.payment).2,
           getLeaseById (recordPayment db lid v EntryKind.payment).1 lid,
           listPaymentsForLease (recordPayment db lid v EntryKind.payment).1 lid⟩) := by
  unfold paymentsPost
  rw [requireRole_none db sub u Role.renter hu hrole]
  dsimp only
  rw [if_neg (not_le.mpr hv), hl]
  dsimp only
  rw [if_neg (by simp [hren])]

theorem leaseBalancePatch_success_eq (db : Db) (sub lid : Nat) (u : UserRow)
    (lease : LeaseRow) (property : PropertyRow) (v : ℚ)
    (hu : getUserById db sub = some u) (hrole : u.role = Role.landlord)
    (hl : getLeaseById db lid = some lease)
    (hp : getRentalPropertyById db lease.property_id = some property)
    (hown : property.landlord_id = sub) :
    leaseBalancePatch db sub lid (JsNum.fin v)
      = ((recordPayment (updateLeaseBalance db lid v).1 lid v
            (if 0 < v then EntryKind.charge else EntryKind.credit)).1,
         Except.ok (updateLeaseBalance db lid v).2) := by
  unfold leaseBalancePatch
  rw [requireRole_none db sub u Role.landlord hu hrole]
  dsimp only
  rw [hl]
  dsimp only
  rw [hp]
  dsimp only
  rw [if_neg (by simp [hown])]

theorem leasesPost_success_eq (db : Db) (sub : Nat) (u : UserRow)
    (property : PropertyRow) (b : LeasePostBody)
    (pid rid : Nat) (rv : ℚ) (d : ℚ)
    (hu : getUserById db sub = some u) (hrole : u.role = Role.landlord)
    (hpid : b.propertyId = some pid) (hrid : b.renterId = some rid)
    (hrent : b.monthlyRent = JsNum.fin rv) (hrv : 0 < rv)
    (hdue : b.dueDay = JsNum.fin d) (hden : d.den = 1)
    (hd1 : 1 ≤ d) (hd31 : d ≤ 31)
    (hp : getRentalPropertyById db pid = some property)
    (hown : property.landlord_id = sub) :
    leasesPost db sub b
      = ((createLease db ⟨pid, rid, b.startDate, b.occupantsCount, rv, d.num,
            b.currentBalance.orZero⟩).1,
         Except.ok (createLease db ⟨pid, rid, b.startDate, b.occupantsCount, rv, d.num,
            b.currentBalance.orZero⟩).2) := by
  unfold leasesPost
  rw [requireRole_none db sub u Role.landlord hu hrole]
  dsimp only
  rw [hpid, hrid]
  dsimp only
  rw [hrent]
  dsimp only
  rw [if_neg (not_le.mpr hrv), hdue]
  dsimp only
  rw [if_neg (by
    push_neg
    exact ⟨hden, hd1, hd31⟩)]
  rw [hp]
  dsimp only
  rw [if_neg (by simp [hown])]

theorem listPaymentsForLease_perm (db : Db) (lid : Nat) :
    (listPaymentsForLease db lid).Perm
      (db.payments.filter (fun p => p.lease_id == lid)) :=
  List.mergeSort_perm _ _

theorem newestFirst_total (a b : PaymentRow) : newestFirst a b || newestFirst b a := by
  unfold newestFirst
  by_cases h : b.paid_at ≤ a.paid_at
  · simp [h]
  · simp [Nat.le_of_lt (Nat.lt_of_not_le h)]

theorem listPaymentsForLease_sorted (db : Db) (lid : Nat) :
    (listPaymentsForLease db lid).Pairwise (fun a b => b.paid_at ≤ a.paid_at) := by
  have h := @List.sorted_mergeSort PaymentRow newestFirst
    (fun a b c hab hbc => by
      unfold newestFirst at *
      simp only [decide_eq_true_eq] at hab hbc ⊢
      exact Nat.le_trans hbc hab)
    newestFirst_total
    (db.payments.filter (fun p => p.lease_id == lid))
  refine h.imp ?_
  intro a b hab
  unfold newestFirst at hab
  simpa using hab

end RentalApp
namespace RentalApp

theorem getLeaseById_pay_self (db : Db) (lid : Nat) (v : ℚ) (lease : LeaseRow)
    (hl : getLeaseById db lid = some lease) :
    getLeaseById (recordPaymentDb db lid v EntryKind.payment) lid
      = some { lease with current_balance := lease.current_balance - v } := by
  rw [getLeaseById_recordPaymentDb, if_pos rfl, hl, Option.map_some']
  have hl' : db.leases.find? (fun l => l.id == lid) = some lease := hl
  have hlid : (lease.id == lid) = true := by
    have h2 := List.find?_some hl'
    simpa using h2
  unfold subBalanceRow
  rw [if_pos hlid]

theorem getLeaseById_adjust_self (db : Db) (lid : Nat) (v : ℚ) (lease : LeaseRow)
    (hl : getLeaseById db lid = some lease) :
    getLeaseById (updateLeaseBalanceDb db lid v) lid
      = some { lease with current_balance := lease.current_balance + v } := by
  rw [getLeaseById_updateLeaseBalanceDb, hl, Option.map_some']
  have hl' : db.leases.find? (fun l => l.id == lid) = some lease := hl
  have hlid : (lease.id == lid) = true := by
    have h2 := List.find?_some hl'
    simpa using h2
  unfold addBalanceRow
  rw [if_pos hlid]

theorem activeLeases_createLeaseDb (db : Db) (a : LeaseArgs) :
    activeLeasesForProperty (createLeaseDb db a) a.propertyId
      = activeLeasesForProperty db a.propertyId ++ [newLeaseRow db a] := by
  unfold activeLeasesForProperty createLeaseDb
  show (db.leases ++ [newLeaseRow db a]).filter _ = _
  rw [List.filter_append]
  simp [newLeaseRow]

theorem jsOr_zero (x : ℚ) : jsOr x 0 = x := by
  unfold jsOr
  split <;> simp_all

end RentalApp
namespace RentalApp

/-- Counterexample to C1 as stated: the demo lease starts with running
balance 1200 and an empty ledger, so after the empty command sequence the
balance (1200) differs from the sum of signed entry effects (0) — the
balance is not reconstructible from the entry log alone. -/
theorem C1_cex_initial_balance :
    balanceOf (runCmds demoDb []) 1 = 1200 ∧
    ledgerSum (runCmds demoDb []) 1 = 0 ∧ (1200 : ℚ) ≠ 0 := by
  refine ⟨rfl, rfl, by norm_num⟩

/-- C1 (amended): for every lease and every sequence of Pay / Charge /
Credit commands, the difference between the running balance and the sum of
signed ledger-entry effects is invariant; hence the balance equals the
lease's creation-time balance plus the signed entry effects, and equals the
entry-effect sum exactly when the lease started at the entry-sum baseline
(e.g. initial balance 0). -/
theorem C1_balance_reconstructible (db : Db) (cs : List Cmd) (leaseId : Nat) :
    balanceOf (runCmds db cs) leaseId - ledgerSum (runCmds db cs) leaseId
      = balanceOf db leaseId - ledgerSum db leaseId :=
  runCmds_diff cs db leaseId

/-- Counterexample to C2 as stated: for the demo lease state (monthly rent
1200, balance 1200) the renter portal and the landlord per-lease pill say
paid, but the landlord stats tile does not count it as paid — the portals
do not all compute the same threshold. -/
theorem C2_cex_stats_tile :
    (0 : ℚ) < 1200 ∧
    renterPaidThisMonth 1200 1200 = true ∧
    leaseCardPaid (some ⟨1, 1, 2, some 0, 1, 1200, 1, 1200, true, 0⟩) = true ∧
    statsPaid (some ⟨1, 1, 2, some 0, 1, 1200, 1, 1200, true, 0⟩) = false := by
  refine ⟨by norm_num, ?_, ?_, ?_⟩ <;> decide

/-- C2 (amended): for a lease with positive monthly rent, the renter
portal's paid/overdue predicates and the landlord per-lease pill all use
the threshold balance ≤ monthly rent and agree; the landlord stats tile
instead counts a lease as paid only when balance ≤ 0, so it disagrees with
them whenever 0 < balance ≤ monthly rent. -/
theorem C2_paid_threshold (l : LeaseRow) (h : 0 < l.monthly_rent) :
    (leaseCardPaid (some l) = true ↔ l.current_balance ≤ l.monthly_rent) ∧
    (renterPaidThisMonth l.current_balance l.monthly_rent = true
      ↔ l.current_balance ≤ l.monthly_rent) ∧
    (renterBalanceOverdue l.current_balance l.monthly_rent = true
      ↔ l.monthly_rent < l.current_balance) ∧
    (leaseCardPaid (some l) = renterPaidThisMonth l.current_balance l.monthly_rent) ∧
    (statsPaid (some l) = true ↔ l.current_balance ≤ 0) := by
  have hne : l.monthly_rent ≠ 0 := ne_of_gt h
  unfold leaseCardPaid renterPaidThisMonth renterBalanceOverdue statsPaid
  dsimp only
  rw [jsOr_zero, jsOr_zero, jsOr_zero]
  simp [hne]

/-- Witness for C2: the amended statement applied to the demo lease state. -/
theorem C2_paid_threshold_witness :
    (leaseCardPaid (some ⟨1, 1, 2, some 0, 1, 1200, 1, 1200, true, 0⟩) = true
      ↔ (1200 : ℚ) ≤ 1200) ∧
    (renterPaidThisMonth 1200 1200 = true ↔ (1200 : ℚ) ≤ 1200) ∧
    (renterBalanceOverdue 1200 1200 = true ↔ (1200 : ℚ) < 1200) ∧
    (leaseCardPaid (some ⟨1, 1, 2, some 0, 1, 1200, 1, 1200, true, 0⟩)
      = renterPaidThisMonth 1200 1200) ∧
    (statsPaid (some ⟨1, 1, 2, some 0, 1, 1200, 1, 1200, true, 0⟩) = true
      ↔ (1200 : ℚ) ≤ 0) :=
  C2_paid_threshold ⟨1, 1, 2, some 0, 1, 1200, 1, 1200, true, 0⟩ (by norm_num)

end RentalApp
namespace RentalApp

/-- Counterexample to C7 as stated: a Pay naming a leaseId with no lease
(id 99 in the demo base store) fails with the 403 forbidden error of the
renter-ownership check, not with a not-found error. -/
theorem C7_cex_pay_forbidden :
    paymentsPost demoBase 2 99 (JsNum.fin 100)
      = (demoBase, Except.error ⟨403, "You can only pay your own lease."⟩) ∧
    (403 : Nat) ≠ 404 :=
  ⟨rfl, by decide⟩

/-- C7 (amended): a Pay or adjustBalance naming an unknown leaseId causes
no state change; adjustBalance fails with the 404 not-found error, while
Pay fails with the 403 forbidden error of the combined existence/ownership
check (for a renter requester with a valid amount). -/
theorem C7_unknown_lease (db : Db) (sub lid : Nat)
    (hl : getLeaseById db lid = none) :
    (∀ amt : JsNum, (paymentsPost db sub lid amt).1 = db) ∧
    (∀ bal : JsNum, (leaseBalancePatch db sub lid bal).1 = db) ∧
    (∀ (u : UserRow) (v : ℚ), getUserById db sub = some u →
      u.role = Role.renter → 0 < v →
      (paymentsPost db sub lid (JsNum.fin v)).2
        = Except.error ⟨403, "You can only pay your own lease."⟩) ∧
    (∀ (u : UserRow) (v : ℚ), getUserById db sub = some u →
      u.role = Role.landlord →
      (leaseBalancePatch db sub lid (JsNum.fin v)).2
        = Except.error ⟨404, "Lease not found."⟩) := by
  refine ⟨?_, ?_, ?_, ?_⟩
  · intro amt
    unfold paymentsPost
    cases hr : requireRole db sub Role.renter with
    | some e => rfl
    | none =>
      cases amt with
      | nonfinite => rfl
      | fin v =>
        dsimp only
        by_cases hv : v ≤ 0
        · rw [if_pos hv]
        · rw [if_neg hv, hl]
  · intro bal
    unfold leaseBalancePatch
    cases hr : requireRole db sub Role.landlord with
    | some e => rfl
    | none =>
      cases bal with
      | nonfinite => rfl
      | fin v =>
        dsimp only
        rw [hl]
  · intro u v hu hrole hv
    unfold paymentsPost
    rw [requireRole_none db sub u Role.renter hu hrole]
    dsimp only
    rw [if_neg (not_le.mpr hv), hl]
  · intro u v hu hrole
    unfold leaseBalancePatch
    rw [requireRole_none db sub u Role.landlord hu hrole]
    dsimp only
    rw [hl]

/-- Witness for C7: the amended statement applied at the demo base store
(no leases), with the renter (id 2) paying and the landlord (id 1)
adjusting the unknown lease 99. -/
theorem C7_unknown_lease_witness :
    (paymentsPost demoBase 2 99 JsNum.nonfinite).1 = demoBase ∧
    (leaseBalancePatch demoBase 1 99 (JsNum.fin 5)).1 = demoBase ∧
    (paymentsPost demoBase 2 99 (JsNum.fin 100)).2
      = Except.error ⟨403, "You can only pay your own lease."⟩ ∧
    (leaseBalancePatch demoBase 1 99 (JsNum.fin 5)).2
      = Except.error ⟨404, "Lease not found."⟩ := by
  have h := C7_unknown_lease demoBase 2 99 rfl
  have h2 := C7_unknown_lease demoBase 1 99 rfl
  exact ⟨h.1 JsNum.nonfinite, h2.2.1 (JsNum.fin 5),
    h.2.2.1 ⟨2, Role.renter⟩ 100 rfl rfl (by norm_num),
    h2.2.2.2 ⟨1, Role.landlord⟩ 5 rfl rfl⟩

/-- Counterexample to C8 as stated: a landlord balance adjustment with
delta 0 passes the finiteness check and is recorded as a `credit` entry
with amount 0, which does not satisfy amount < 0. -/
theorem C8_cex_zero_credit :
    (leaseBalancePatch demoDb 1 1 (JsNum.fin 0)).1.payments
      = [⟨1, 1, 0, 1, EntryKind.credit⟩] ∧ ¬((0 : ℚ) < 0) :=
  ⟨rfl, by norm_num⟩

/-- C8 (amended): every ledger entry created through the Pay and
adjustBalance commands satisfies: payment entries and charge entries have
amount > 0, and credit entries have amount ≤ 0 (amount 0 occurs exactly
for a zero adjustment); starting from a store whose entries satisfy this
sign discipline, it holds after any command sequence. -/
theorem C8_entry_signs (db : Db) (cs : List Cmd) (h : entriesOk db = true) :
    entriesOk (runCmds db cs) = true :=
  entriesOk_runCmds cs db h

/-- Witness for C8: the sign discipline holds for the demo store and is
preserved across a renter payment and a landlord credit. -/
theorem C8_entry_signs_witness :
    entriesOk demoDb = true ∧
    entriesOk (runCmds demoDb
      [Cmd.pay 2 1 (JsNum.fin 200), Cmd.adjust 1 1 (JsNum.fin (-50))]) = true :=
  ⟨by decide, C8_entry_signs demoDb
    [Cmd.pay 2 1 (JsNum.fin 200), Cmd.adjust 1 1 (JsNum.fin (-50))] (by decide)⟩

/-- C9: portal rendering of ledger entries — a charge is labeled
"Rent issued" with a plus on the absolute amount, a credit "Credited on"
with a minus, a payment "Paid on" with a minus; the renter-view note is
"Posted by landlord" for charges and credits and "Paid by you" for
payments. -/
theorem C9_ledger_rendering (entry : PaymentRow) :
    (entry.type = EntryKind.charge →
      formatLedgerAmount entry = "+" ++ formatMoney |entry.amount| ∧
      ledgerLabel entry = "Rent issued" ∧
      renterEntryNote entry.type = "Posted by landlord") ∧
    (entry.type = EntryKind.credit →
      formatLedgerAmount entry = "-" ++ formatMoney |entry.amount| ∧
      ledgerLabel entry = "Credited on" ∧
      renterEntryNote entry.type = "Posted by landlord") ∧
    (entry.type = EntryKind.payment →
      formatLedgerAmount entry = "-" ++ formatMoney |entry.amount| ∧
      ledgerLabel entry = "Paid on" ∧
      renterEntryNote entry.type = "Paid by you") := by
  refine ⟨?_, ?_, ?_⟩ <;> intro h <;>
    simp [formatLedgerAmount, ledgerLabel, renterEntryNote, h]

/-- Witness for C9: the rendering rules evaluated on one concrete entry of
each kind. -/
theorem C9_ledger_rendering_witness :
    (formatLedgerAmount ⟨1, 1, 1200, 0, EntryKind.charge⟩
        = "+" ++ formatMoney |(1200 : ℚ)| ∧
      ledgerLabel ⟨1, 1, 1200, 0, EntryKind.charge⟩ = "Rent issued" ∧
      renterEntryNote EntryKind.charge = "Posted by landlord") ∧
    (formatLedgerAmount ⟨2, 1, -50, 1, EntryKind.credit⟩
        = "-" ++ formatMoney |(-50 : ℚ)| ∧
      ledgerLabel ⟨2, 1, -50, 1, EntryKind.credit⟩ = "Credited on" ∧
      renterEntryNote EntryKind.credit = "Posted by landlord") ∧
    (formatLedgerAmount ⟨3, 1, 200, 2, EntryKind.payment⟩
        = "-" ++ formatMoney |(200 : ℚ)| ∧
      ledgerLabel ⟨3, 1, 200, 2, EntryKind.payment⟩ = "Paid on" ∧
      renterEntryNote EntryKind.payment = "Paid by you") :=
  ⟨(C9_ledger_rendering ⟨1, 1, 1200, 0, EntryKind.charge⟩).1 rfl,
   (C9_ledger_rendering ⟨2, 1, -50, 1, EntryKind.credit⟩).2.1 rfl,
   (C9_ledger_rendering ⟨3, 1, 200, 2, EntryKind.payment⟩).2.2 rfl⟩

end RentalApp
namespace RentalApp

/-- C3: an adjustBalance by the owning landlord with a nonzero finite delta
appends exactly one ledger entry — a charge for delta > 0, a credit for
delta < 0, with amount delta — adds delta to the running balance, and
returns the updated lease. -/
theorem C3_adjust_balance (db : Db) (sub lid : Nat) (u : UserRow)
    (lease : LeaseRow) (property : PropertyRow) (delta : ℚ)
    (hu : getUserById db sub = some u) (hrole : u.role = Role.landlord)
    (hl : getLeaseById db lid = some lease)
    (hp : getRentalPropertyById db lease.property_id = some property)
    (hown : property.landlord_id = sub) (_hnz : delta ≠ 0) :
    (0 < delta →
      (leaseBalancePatch db sub lid (JsNum.fin delta)).1.payments
        = db.payments ++ [⟨db.nextPaymentId, lid, delta, db.clock, EntryKind.charge⟩]) ∧
    (delta < 0 →
      (leaseBalancePatch db sub lid (JsNum.fin delta)).1.payments
        = db.payments ++ [⟨db.nextPaymentId, lid, delta, db.clock, EntryKind.credit⟩]) ∧
    balanceOf (leaseBalancePatch db sub lid (JsNum.fin delta)).1 lid
      = lease.current_balance + delta ∧
    (leaseBalancePatch db sub lid (JsNum.fin delta)).2
      = Except.ok (some { lease with current_balance := lease.current_balance + delta }) := by
  rw [leaseBalancePatch_success_eq db sub lid u lease property delta hu hrole hl hp hown]
  refine ⟨?_, ?_, ?_, ?_⟩
  · intro hd
    show (recordPaymentDb (updateLeaseBalanceDb db lid delta) lid delta
        (if 0 < delta then EntryKind.charge else EntryKind.credit)).payments = _
    rw [if_pos hd]
    rfl
  · intro hd
    show (recordPaymentDb (updateLeaseBalanceDb db lid delta) lid delta
        (if 0 < delta then EntryKind.charge else EntryKind.credit)).payments = _
    rw [if_neg (not_lt.mpr (le_of_lt hd))]
    rfl
  · show balanceOf (recordPaymentDb (updateLeaseBalanceDb db lid delta) lid delta
        (if 0 < delta then EntryKind.charge else EntryKind.credit)) lid = _
    unfold balanceOf
    rw [getLeaseById_recordPaymentDb, if_neg (by
      by_cases hd : 0 < delta
      · rw [if_pos hd]; simp
      · rw [if_neg hd]; simp)]
    rw [getLeaseById_adjust_self db lid delta lease hl]
  · show Except.ok (getLeaseById (updateLeaseBalanceDb db lid delta) lid) = _
    rw [getLeaseById_adjust_self db lid delta lease hl]

/-- Witness for C3: the demo landlord credits 100 off the demo lease. -/
theorem C3_adjust_balance_witness :
    (leaseBalancePatch demoDb 1 1 (JsNum.fin (-100))).1.payments
      = demoDb.payments ++ [⟨demoDb.nextPaymentId, 1, -100, demoDb.clock, EntryKind.credit⟩] ∧
    balanceOf (leaseBalancePatch demoDb 1 1 (JsNum.fin (-100))).1 1 = 1200 + (-100) ∧
    (leaseBalancePatch demoDb 1 1 (JsNum.fin (-100))).2
      = Except.ok (some ⟨1, 1, 2, some 0, 1, 1200, 1, 1200 + (-100), true, 0⟩) := by
  have h := C3_adjust_balance demoDb 1 1 ⟨1, Role.landlord⟩
    ⟨1, 1, 2, some 0, 1, 1200, 1, 1200, true, 0⟩ ⟨1, 1, 1200⟩ (-100)
    rfl rfl rfl rfl rfl (by norm_num)
  exact ⟨h.2.1 (by norm_num), h.2.2.1, h.2.2.2⟩

/-- C4: a Pay with non-positive or non-finite amount is rejected with the
amount-validation error and no state change; a Pay by the lease's renter
with a finite amount > 0 (no upper bound, so overpayment is permitted)
appends exactly one payment entry, decreases the balance by exactly that
amount, and returns the updated lease plus the full entry list of the
lease ordered newest-first. -/
theorem C4_pay_validation_and_effect (db : Db) (sub lid : Nat) (u : UserRow)
    (hu : getUserById db sub = some u) (hrole : u.role = Role.renter) :
    (∀ v : ℚ, v ≤ 0 →
      paymentsPost db sub lid (JsNum.fin v)
        = (db, Except.error ⟨400, "Payment amount must be positive."⟩)) ∧
    (paymentsPost db sub lid JsNum.nonfinite
      = (db, Except.error ⟨400, "Payment amount must be positive."⟩)) ∧
    (∀ (lease : LeaseRow) (v : ℚ), 0 < v → getLeaseById db lid = some lease →
      lease.renter_id = sub →
      (paymentsPost db sub lid (JsNum.fin v)).1.payments
        = db.payments ++ [⟨db.nextPaymentId, lid, v, db.clock, EntryKind.payment⟩] ∧
      balanceOf (paymentsPost db sub lid (JsNum.fin v)).1 lid
        = lease.current_balance - v ∧
      ∃ r : PayResult,
        (paymentsPost db sub lid (JsNum.fin v)).2 = Except.ok r ∧
        r.lease = some { lease with current_balance := lease.current_balance - v } ∧
        r.payments.Perm ((paymentsPost db sub lid (JsNum.fin v)).1.payments.filter
          (fun p => p.lease_id == lid)) ∧
        r.payments.Pairwise (fun a b => b.paid_at ≤ a.paid_at)) := by
  refine ⟨?_, ?_, ?_⟩
  · intro v hv
    unfold paymentsPost
    rw [requireRole_none db sub u Role.renter hu hrole]
    dsimp only
    rw [if_pos hv]
  · unfold paymentsPost
    rw [requireRole_none db sub u Role.renter hu hrole]
  · intro lease v hv hl hren
    rw [paymentsPost_success_eq db sub lid u lease v hu hrole hv hl hren]
    refine ⟨rfl, ?_, ?_⟩
    · show balanceOf (recordPaymentDb db lid v EntryKind.payment) lid = _
      unfold balanceOf
      rw [getLeaseById_pay_self db lid v lease hl]
    · refine ⟨_, rfl, ?_, ?_, ?_⟩
      · show getLeaseById (recordPaymentDb db lid v EntryKind.payment) lid = _
        exact getLeaseById_pay_self db lid v lease hl
      · show (listPaymentsForLease (recordPaymentDb db lid v EntryKind.payment) lid).Perm _
        exact listPaymentsForLease_perm _ lid
      · exact listPaymentsForLease_sorted _ lid

/-- Witness for C4: a negative amount is rejected on the demo store, and an
overpayment of 1300 against the 1200 balance is accepted, appends one
payment entry, and drives the balance to -100. -/
theorem C4_pay_witness :
    paymentsPost demoDb 2 1 (JsNum.fin (-5))
      = (demoDb, Except.error ⟨400, "Payment amount must be positive."⟩) ∧
    (paymentsPost demoDb 2 1 (JsNum.fin 1300)).1.payments
      = demoDb.payments ++ [⟨demoDb.nextPaymentId, 1, 1300, demoDb.clock, EntryKind.payment⟩] ∧
    balanceOf (paymentsPost demoDb 2 1 (JsNum.fin 1300)).1 1 = -100 := by
  have h := C4_pay_validation_and_effect demoDb 2 1 ⟨2, Role.renter⟩ rfl rfl
  have h3 := h.2.2 ⟨1, 1, 2, some 0, 1, 1200, 1, 1200, true, 0⟩ 1300 (by norm_num) rfl rfl
  refine ⟨h.1 (-5) (by norm_num), h3.1, ?_⟩
  rw [h3.2.1]
  norm_num

end RentalApp
namespace RentalApp

/-- Counterexample to C5 as stated: the demo store already holds one active
lease for property 1, yet a second createLease for the same property
succeeds and leaves two simultaneously active leases — no active-lease
check runs before lease creation. -/
theorem C5_cex_two_active_leases :
    (activeLeasesForProperty demoDb 1).length = 1 ∧
    (activeLeasesForProperty (leasesPost demoDb 1
      ⟨some 1, some 2, none, 1, JsNum.fin 1200, JsNum.fin 1, JsNum.fin 0⟩).1 1).length = 2 :=
  ⟨rfl, rfl⟩

/-- C5 (amended): lease creation performs no uniqueness check — every
successful createLease appends one more lease row, active, for the target
property; so a unit that already has an active lease ends up with two. -/
theorem C5_no_single_active_lease_enforcement (db : Db) (sub : Nat) (u : UserRow)
    (property : PropertyRow) (b : LeasePostBody) (pid rid : Nat) (rv d : ℚ)
    (hu : getUserById db sub = some u) (hrole : u.role = Role.landlord)
    (hpid : b.propertyId = some pid) (hrid : b.renterId = some rid)
    (hrent : b.monthlyRent = JsNum.fin rv) (hrv : 0 < rv)
    (hdue : b.dueDay = JsNum.fin d) (hden : d.den = 1)
    (hd1 : 1 ≤ d) (hd31 : d ≤ 31)
    (hp : getRentalPropertyById db pid = some property)
    (hown : property.landlord_id = sub) :
    activeLeasesForProperty (leasesPost db sub b).1 pid
      = activeLeasesForProperty db pid
        ++ [newLeaseRow db ⟨pid, rid, b.startDate, b.occupantsCount, rv, d.num,
              b.currentBalance.orZero⟩] ∧
    (newLeaseRow db ⟨pid, rid, b.startDate, b.occupantsCount, rv, d.num,
      b.currentBalance.orZero⟩).is_active = true := by
  rw [leasesPost_success_eq db sub u property b pid rid rv d
    hu hrole hpid hrid hrent hrv hdue hden hd1 hd31 hp hown]
  exact ⟨activeLeases_createLeaseDb db
    ⟨pid, rid, b.startDate, b.occupantsCount, rv, d.num, b.currentBalance.orZero⟩, rfl⟩

/-- Witness for C5: the amended statement applied to the demo store, where
property 1 already has the demo active lease. -/
theorem C5_no_single_active_lease_witness :
    activeLeasesForProperty (leasesPost demoDb 1
        ⟨some 1, some 2, none, 1, JsNum.fin 1200, JsNum.fin 1, JsNum.fin 0⟩).1 1
      = activeLeasesForProperty demoDb 1
        ++ [newLeaseRow demoDb ⟨1, 2, none, 1, 1200, 1, 0⟩] ∧
    (newLeaseRow demoDb ⟨1, 2, none, 1, 1200, 1, 0⟩).is_active = true :=
  C5_no_single_active_lease_enforcement demoDb 1 ⟨1, Role.landlord⟩ ⟨1, 1, 1200⟩
    ⟨some 1, some 2, none, 1, JsNum.fin 1200, JsNum.fin 1, JsNum.fin 0⟩ 1 2 1200 1
    rfl rfl rfl rfl rfl (by norm_num) rfl rfl (by norm_num) (by norm_num) rfl rfl

/-- C6: a Pay whose requester is not the lease's renter is rejected as
forbidden with no state change, and an adjustBalance whose requesting
landlord does not own the property backing the lease is rejected as
forbidden with no state change. -/
theorem C6_ownership_checks (db : Db) (sub lid : Nat) (u : UserRow)
    (lease : LeaseRow)
    (hu : getUserById db sub = some u) (hl : getLeaseById db lid = some lease) :
    (∀ v : ℚ, u.role = Role.renter → 0 < v → lease.renter_id ≠ sub →
      paymentsPost db sub lid (JsNum.fin v)
        = (db, Except.error ⟨403, "You can only pay your own lease."⟩)) ∧
    (∀ (v : ℚ) (property : PropertyRow), u.role = Role.landlord →
      getRentalPropertyById db lease.property_id = some property →
      property.landlord_id ≠ sub →
      leaseBalancePatch db sub lid (JsNum.fin v)
        = (db, Except.error ⟨403, "You can only update your own leases."⟩)) := by
  constructor
  · intro v hrole hv hren
    unfold paymentsPost
    rw [requireRole_none db sub u Role.renter hu hrole]
    dsimp only
    rw [if_neg (not_le.mpr hv), hl]
    dsimp only
    rw [if_pos hren]
  · intro v property hrole hp hown
    unfold leaseBalancePatch
    rw [requireRole_none db sub u Role.landlord hu hrole]
    dsimp only
    rw [hl]
    dsimp only
    rw [hp]
    dsimp only
    rw [if_pos hown]

/-- Witness for C6: renter 3 cannot pay lease 1 (renter 2's lease), and
landlord 1 cannot adjust lease 2 (on landlord 4's property). -/
theorem C6_ownership_checks_witness :
    paymentsPost wDb 3 1 (JsNum.fin 100)
      = (wDb, Except.error ⟨403, "You can only pay your own lease."⟩) ∧
    leaseBalancePatch wDb 1 2 (JsNum.fin 100)
      = (wDb, Except.error ⟨403, "You can only update your own leases."⟩) := by
  have h1 := C6_ownership_checks wDb 3 1 ⟨3, Role.renter⟩
    ⟨1, 1, 2, none, 1, 1200, 1, 1200, true, 0⟩ rfl rfl
  have h2 := C6_ownership_checks wDb 1 2 ⟨1, Role.landlord⟩
    ⟨2, 2, 3, none, 1, 900, 1, 0, true, 0⟩ rfl rfl
  exact ⟨h1.1 100 rfl (by norm_num) (by decide),
    h2.2 100 ⟨2, 4, 900⟩ rfl rfl (by decide)⟩

/-- C10: a successful createLease stores the caller-supplied finite initial
balance verbatim (a non-finite one is coerced to 0) and appends no ledger
entry; in particular the demo bootstrap lease has balance 1200 with an
empty ledger. -/
theorem C10_create_lease_initial_balance (db : Db) (sub : Nat) (u : UserRow)
    (property : PropertyRow) (b : LeasePostBody) (pid rid : Nat) (rv d : ℚ)
    (hu : getUserById db sub = some u) (hrole : u.role = Role.landlord)
    (hpid : b.propertyId = some pid) (hrid : b.renterId = some rid)
    (hrent : b.monthlyRent = JsNum.fin rv) (hrv : 0 < rv)
    (hdue : b.dueDay = JsNum.fin d) (hden : d.den = 1)
    (hd1 : 1 ≤ d) (hd31 : d ≤ 31)
    (hp : getRentalPropertyById db pid = some property)
    (hown : property.landlord_id = sub) :
    (leasesPost db sub b).1.leases
      = db.leases ++ [newLeaseRow db ⟨pid, rid, b.startDate, b.occupantsCount, rv, d.num,
          b.currentBalance.orZero⟩] ∧
    (leasesPost db sub b).1.payments = db.payments ∧
    (∀ c : ℚ, b.currentBalance = JsNum.fin c → b.currentBalance.orZero = c) ∧
    (b.currentBalance = JsNum.nonfinite → b.currentBalance.orZero = 0) ∧
    balanceOf demoDb 1 = 1200 ∧
    listPaymentsForLease demoDb 1 = [] := by
  rw [leasesPost_success_eq db sub u property b pid rid rv d
    hu hrole hpid hrid hrent hrv hdue hden hd1 hd31 hp hown]
  refine ⟨rfl, rfl, ?_, ?_, rfl, ?_⟩
  · intro c hc
    rw [hc]
    rfl
  · intro hc
    rw [hc]
    rfl
  · show (List.filter _ demoDb.payments).mergeSort newestFirst = []
    have hpay : demoDb.payments = [] := rfl
    rw [hpay, List.filter_nil, List.mergeSort_nil]

/-- Witness for C10: landlord 1 creates a lease on the demo base store with
initial balance 777; the lease row stores 777 and no entry is appended. -/
theorem C10_create_lease_witness :
    (leasesPost demoBase 1
        ⟨some 1, some 2, none, 1, JsNum.fin 1000, JsNum.fin 5, JsNum.fin 777⟩).1.leases
      = demoBase.leases ++ [newLeaseRow demoBase ⟨1, 2, none, 1, 1000, 5, 777⟩] ∧
    (leasesPost demoBase 1
        ⟨some 1, some 2, none, 1, JsNum.fin 1000, JsNum.fin 5, JsNum.fin 777⟩).1.payments
      = demoBase.payments := by
  have h := C10_create_lease_initial_balance demoBase 1 ⟨1, Role.landlord⟩ ⟨1, 1, 1200⟩
    ⟨some 1, some 2, none, 1, JsNum.fin 1000, JsNum.fin 5, JsNum.fin 777⟩ 1 2 1000 5
    rfl rfl rfl rfl rfl (by norm_num) rfl rfl (by norm_num) (by norm_num) rfl rfl
  exact ⟨h.1, h.2.1⟩

end RentalApp
